import Mathlib

/-!
Verification of the air-quality cache-aside service.

We shallowly embed the TypeScript sources:
- `src/repositories/cache.ts` (createCacheKey, getCachedData, setCachedData,
  CACHE_TTL_SECONDS),
- the cache-aware AppSync handler (src/unnamed/part_001),
- the cacheless handler (src/lambda/getAirQuality.ts),
- the CDK wiring of the Lambda entry point (src/lib/aws-weather-service-stack.ts).

JavaScript numbers are modelled by `JsNumber`, an exact decimal fixed-point
value (integer mantissa over a power of ten). Every decimal literal of the
sources and tests is represented exactly, and on the inputs used for concrete
evaluation the IEEE-754 double arithmetic performed by the code is exact as
well (multiplication by 100 of short decimal literals rounds to the value the
rational model predicts), so the model is faithful at those points.
Effectful code is modelled by explicit outcome parameters describing what the
DynamoDB send and the HTTP fetch would do, together with an event trace.
-/

namespace AwsWeather

/-- An exact decimal number: the value `mant / 10 ^ scale`. This represents a
JavaScript number by the exact value of its decimal literal. -/
structure JsNumber where
  mant : ℤ
  scale : ℕ
deriving DecidableEq, Repr

/-- The rational value of a `JsNumber`. -/
def JsNumber.toRat (x : JsNumber) : ℚ := (x.mant : ℚ) / 10 ^ x.scale

/-- Exact multiplication of a `JsNumber` by 100 (the `value * 100` of
`createCacheKey`). -/
def JsNumber.mul100 (x : JsNumber) : JsNumber :=
  match x.scale with
  | 0 => ⟨x.mant * 100, 0⟩
  | 1 => ⟨x.mant * 10, 0⟩
  | n + 2 => ⟨x.mant, n⟩

/-- JavaScript `Math.round`: the nearest integer, ties toward positive
infinity, i.e. the floor of `value + 1/2`, computed here as a floor
division on the exact decimal representation. -/
def jsMathRound (x : JsNumber) : ℤ :=
  Int.fdiv (2 * x.mant + 10 ^ x.scale) (2 * 10 ^ x.scale)

/-- Drop factors of ten shared by the mantissa and the scale, so that the
decimal rendering below has no trailing fractional zeros. -/
def stripZeros : ℤ → ℕ → ℤ × ℕ
  | m, 0 => (m, 0)
  | m, k + 1 => if m % 10 == 0 then stripZeros (m / 10) k else (m, k + 1)

/-- JavaScript `Number.prototype.toString` on an exact decimal value: sign,
integer part, decimal point and fractional digits only when needed, trailing
fractional zeros stripped (`40.71` renders as "40.71", `40` as "40"). -/
def jsNumToString (x : JsNumber) : String :=
  let mk := stripZeros x.mant x.scale
  match mk with
  | (m, 0) => toString m
  | (m, k + 1) =>
      let a := m.natAbs
      let ip := a / 10 ^ (k + 1)
      let fp := a % 10 ^ (k + 1)
      let fracDigits := toString fp
      let frac := String.mk (List.replicate (k + 1 - fracDigits.length) '0') ++ fracDigits
      (if m < 0 then "-" else "") ++ toString ip ++ "." ++ frac

/-- `createCacheKey` from src/repositories/cache.ts: round each coordinate to
2 decimal places via `Math.round(value * 100) / 100` and format the pair as
"lat,lon" with the JS template literal (Number toString). -/
def createCacheKey (latitude longitude : JsNumber) : String :=
  let lat : JsNumber := ⟨jsMathRound latitude.mul100, 2⟩
  let lon : JsNumber := ⟨jsMathRound longitude.mul100, 2⟩
  jsNumToString lat ++ "," ++ jsNumToString lon

/-- Decimal-literal shorthand: `dec m k` is the number `m / 10 ^ k`,
e.g. `dec 407128 4` is the literal 40.7128. -/
def dec (m : ℤ) (k : ℕ) : JsNumber := ⟨m, k⟩

/-! ## Configuration: CACHE_TTL_SECONDS -/

/-- Value of the digit list, most significant first. -/
def digitsVal (l : List Char) : ℕ :=
  l.foldl (fun a c => 10 * a + (c.toNat - 48)) 0

/-- JavaScript `parseInt(s, 10)`: skip leading whitespace, read an optional
sign and then the longest run of leading decimal digits; `none` models the NaN
result when no digit is found. -/
def jsParseInt (s : String) : Option ℤ :=
  let l := s.data.dropWhile (fun c => c == ' ' || c == '\t' || c == '\n' || c == '\r')
  let sr : ℤ × List Char :=
    match l with
    | '-' :: t => (-1, t)
    | '+' :: t => (1, t)
    | t => (1, t)
  let digits := sr.2.takeWhile Char.isDigit
  if digits.isEmpty then none
  else some (sr.1 * (digitsVal digits : ℤ))

/-- JavaScript `v || d` on an environment string: the default replaces the
value only when it is undefined or the (falsy) empty string. -/
def envOrDefault (v : Option String) (d : String) : String :=
  match v with
  | none => d
  | some s => if s = "" then d else s

/-- `CACHE_TTL_SECONDS` from src/repositories/cache.ts:
`parseInt(process.env.CACHE_TTL_SECONDS || "3600", 10)`, as a function of the
environment value; `none` models NaN. -/
def CACHE_TTL_SECONDS (env : Option String) : Option ℤ :=
  jsParseInt (envOrDefault env "3600")

/-! ## Data model -/

/-- The `current` block of the internal `AirQualityData` shape. -/
structure CurrentData where
  time : String
  usAqi : Option JsNumber
  pm10 : Option JsNumber
  pm25 : Option JsNumber
deriving DecidableEq, Repr

/-- `AirQualityData` (src/repositories/cache.ts): the canonical result shape.
`current` is `none` when the block is entirely absent. -/
structure AirQualityData where
  latitude : JsNumber
  longitude : JsNumber
  current : Option CurrentData
deriving DecidableEq, Repr

/-- The `current` block of the Open-Meteo response schema. -/
structure OpenMeteoCurrent where
  time : String
  interval : JsNumber
  us_aqi : Option JsNumber
  pm10 : Option JsNumber
  pm2_5 : Option JsNumber
deriving DecidableEq, Repr

/-- `OpenMeteoResponse`: the origin response body as the handler reads it. -/
structure OpenMeteoResponse where
  latitude : JsNumber
  longitude : JsNumber
  current : Option OpenMeteoCurrent
deriving DecidableEq, Repr

/-- A DynamoDB item as read by `getCachedData`: `data` is `none` when the
attribute is absent (and the falsy check then treats the item as a miss). -/
structure CacheItem where
  data : Option AirQualityData
deriving DecidableEq, Repr

/-- The item written by `setCachedData`: locationKey, data and absolute
expiration time in epoch seconds. -/
structure CacheRecord where
  locationKey : String
  data : AirQualityData
  ttl : ℤ
deriving DecidableEq, Repr

/-! ## Effect model -/

/-- What the DynamoDB send of a GetCommand would do: reject with an error
message, or resolve with the (possibly absent) item. -/
inductive GetOutcome where
  | reject (msg : String)
  | resolve (item : Option CacheItem)
deriving DecidableEq, Repr

/-- What the DynamoDB send of a PutCommand would do. -/
inductive PutOutcome where
  | reject (msg : String)
  | resolve
deriving DecidableEq, Repr

instance {ε α : Type} [DecidableEq ε] [DecidableEq α] : DecidableEq (Except ε α) := fun a b =>
  match a, b with
  | .error e, .error f =>
      if h : e = f then isTrue (by rw [h]) else isFalse (by intro hc; cases hc; exact h rfl)
  | .error _, .ok _ => isFalse (by intro hc; cases hc)
  | .ok _, .error _ => isFalse (by intro hc; cases hc)
  | .ok x, .ok y =>
      if h : x = y then isTrue (by rw [h]) else isFalse (by intro hc; cases hc; exact h rfl)

/-- The fetch Response as the handler reads it: status, statusText and the
body (whose JSON decoding may itself fail, modelled by `Except`). -/
structure FetchResponse where
  status : ℕ
  statusText : String
  body : Except String OpenMeteoResponse
deriving DecidableEq, Repr

/-- `Response.ok` of the fetch API: status in the 2xx range. -/
def FetchResponse.ok (r : FetchResponse) : Prop := 200 ≤ r.status ∧ r.status < 300

instance (r : FetchResponse) : Decidable r.ok := by unfold FetchResponse.ok; infer_instance

/-- What the HTTP fetch would do: reject at the network level with an error
message, or resolve with a response. -/
inductive FetchOutcome where
  | reject (msg : String)
  | resolve (r : FetchResponse)
deriving DecidableEq, Repr

/-- The query parameters `fetchWeatherApi` builds with URLSearchParams. -/
structure FetchParams where
  latitude : String
  longitude : String
  current : String
deriving DecidableEq, Repr

/-- Observable effects of one invocation, in order. -/
inductive Event where
  | cacheGet (key : String)
  | fetchCall (url : String) (params : FetchParams)
  | cachePut (key : String) (record : CacheRecord)
deriving DecidableEq, Repr

/-- The environment one invocation of the cache-aware handler runs in: the
behavior of the two DynamoDB sends and of the fetch, the clock (epoch
milliseconds, `Date.now()`) and the parsed TTL configuration. -/
structure Env where
  getOutcome : GetOutcome
  fetchOutcome : FetchOutcome
  putOutcome : PutOutcome
  nowMs : ℤ
  ttlSeconds : ℤ
deriving DecidableEq, Repr

/-! ## CacheStore: getCachedData / setCachedData (src/repositories/cache.ts) -/

/-- The awaited `docClient.send(new GetCommand(...))`: an exception or a
result whose `Item` may be absent. -/
def sendGet (o : GetOutcome) : Except String (Option CacheItem) :=
  match o with
  | .reject m => .error m
  | .resolve item => .ok item

/-- `getCachedData`: return `result.Item.data` when both the item and its
`data` attribute are present, `null` otherwise; any exception from the send is
caught, logged and converted to `null`. The `Except` layer records that the
function itself could in principle throw — the theorems show it never does. -/
def getCachedData (o : GetOutcome) : Except String (Option AirQualityData) :=
  match sendGet o with
  | .error _ => .ok none
  | .ok result =>
      match result with
      | some item =>
          match item.data with
          | some d => .ok (some d)
          | none => .ok none
      | none => .ok none

/-- The item `setCachedData` builds for its PutCommand:
`ttl = Math.floor(Date.now() / 1000) + CACHE_TTL_SECONDS`. -/
def mkCacheRecord (locationKey : String) (data : AirQualityData) (nowMs ttlSeconds : ℤ) :
    CacheRecord :=
  { locationKey := locationKey, data := data, ttl := Int.fdiv nowMs 1000 + ttlSeconds }

/-- `setCachedData`: build the record, send the PutCommand, and catch (log,
do not rethrow) any exception. Returns the outcome visible to the caller
together with the record the PutCommand carried. -/
def setCachedData (locationKey : String) (data : AirQualityData) (nowMs ttlSeconds : ℤ)
    (o : PutOutcome) : Except String Unit × CacheRecord :=
  let record := mkCacheRecord locationKey data nowMs ttlSeconds
  match o with
  | .reject _ => (.ok (), record)
  | .resolve => (.ok (), record)

/-! ## OriginClient and the two handler variants -/

/-- The fixed Open-Meteo endpoint. -/
def apiUrl : String := "https://air-quality-api.open-meteo.com/v1/air-quality"

/-- The ordered field list the handler requests. -/
def currentFields : List String := ["us_aqi", "pm10", "pm2_5"]

/-- The URLSearchParams `fetchWeatherApi` builds: latitude and longitude via
Number toString on the unrounded inputs, `current` joined with commas. -/
def fetchWeatherApiParams (latitude longitude : JsNumber) : FetchParams :=
  { latitude := jsNumToString latitude
    longitude := jsNumToString longitude
    current := String.intercalate "," currentFields }

/-- The response-to-result mapping of the handler: latitude/longitude echoed
from the origin body; when a `current` block exists, `us_aqi`/`pm10`/`pm2_5`
become `usAqi`/`pm10`/`pm25` (optional fields passed through); otherwise the
result has no `current` at all. -/
def transformResponse (data : OpenMeteoResponse) : AirQualityData :=
  { latitude := data.latitude
    longitude := data.longitude
    current := data.current.map (fun c =>
      { time := c.time, usAqi := c.us_aqi, pm10 := c.pm10, pm25 := c.pm2_5 }) }

/-- The catch-all of both handlers: rethrow any error wrapped as
"Failed to fetch air quality data: " plus the underlying message. -/
def wrapCaught (r : Except String AirQualityData) : Except String AirQualityData :=
  match r with
  | .ok v => .ok v
  | .error m => .error ("Failed to fetch air quality data: " ++ m)

/-- The try-block of the cache-aware handler (src/unnamed/part_001): check the
cache, return a hit immediately; on a miss fetch the origin, fail on non-ok
status or body decode failure, otherwise transform, cache and return. -/
def handlerTry (latitude longitude : JsNumber) (locationKey : String) (env : Env) :
    List Event × Except String AirQualityData :=
  match getCachedData env.getOutcome with
  | .error m => ([.cacheGet locationKey], .error m)
  | .ok (some cachedData) => ([.cacheGet locationKey], .ok cachedData)
  | .ok none =>
      let params := fetchWeatherApiParams latitude longitude
      let pre := [Event.cacheGet locationKey, Event.fetchCall apiUrl params]
      match env.fetchOutcome with
      | .reject m => (pre, .error m)
      | .resolve r =>
          if r.ok then
            match r.body with
            | .error m => (pre, .error m)
            | .ok data =>
                let result := transformResponse data
                match setCachedData locationKey result env.nowMs env.ttlSeconds env.putOutcome with
                | (.error m, record) => (pre ++ [Event.cachePut locationKey record], .error m)
                | (.ok _, record) => (pre ++ [Event.cachePut locationKey record], .ok result)
          else (pre, .error ("Open-Meteo API error: " ++ toString r.status ++ " " ++ r.statusText))

/-- The cache-aware AppSync handler (src/unnamed/part_001): derive the key,
run the try-block, and wrap any escaping error. Returns the event trace and
the settled value of the returned promise. -/
def handler (latitude longitude : JsNumber) (env : Env) :
    List Event × Except String AirQualityData :=
  let locationKey := createCacheKey latitude longitude
  let tr := handlerTry latitude longitude locationKey env
  (tr.1, wrapCaught tr.2)

/-- The cacheless handler exported by src/lambda/getAirQuality.ts: no key, no
cache read, no cache write — fetch, transform and return, with the same error
wrapping. -/
def handlerNoCache (latitude longitude : JsNumber) (f : FetchOutcome) :
    List Event × Except String AirQualityData :=
  let params := fetchWeatherApiParams latitude longitude
  let pre := [Event.fetchCall apiUrl params]
  let tr : List Event × Except String AirQualityData :=
    match f with
    | .reject m => (pre, .error m)
    | .resolve r =>
        if r.ok then
          match r.body with
          | .error m => (pre, .error m)
          | .ok data => (pre, .ok (transformResponse data))
        else (pre, .error ("Open-Meteo API error: " ++ toString r.status ++ " " ++ r.statusText))
  (tr.1, wrapCaught tr.2)

/-! ## Cache-state interpretation of a trace -/

/-- The backing table, as a map from location keys to records. -/
def CacheState : Type := String → Option CacheRecord

/-- Effect of one event on the table: only a put changes it. -/
def applyEvent (s : CacheState) (e : Event) : CacheState :=
  match e with
  | .cachePut key record => fun k => if k = key then some record else s k
  | _ => s

/-- Effect of a whole trace on the table. -/
def applyEvents (es : List Event) (s : CacheState) : CacheState :=
  es.foldl applyEvent s

/-! ## CDK wiring (src/lib/aws-weather-service-stack.ts) -/

/-- The NodejsFunction properties of the GetAirQualityFunction construct that
identify the deployed entry point and its configuration. -/
structure LambdaWiring where
  handlerName : String
  entry : String
  cacheTtlSecondsEnv : String
deriving DecidableEq, Repr

/-- The GetAirQualityFunction construct: `handler: "handler"`,
`entry: path.join(__dirname, "../lambda/getAirQuality.ts")` (given here
relative to the lib directory), `CACHE_TTL_SECONDS: "3600"`. -/
def GetAirQualityFunction : LambdaWiring :=
  { handlerName := "handler"
    entry := "../lambda/getAirQuality.ts"
    cacheTtlSecondsEnv := "3600" }

/-! ## The rounding mode the spec asserts, for comparison (claim C7) -/

/-- Negation of an exact decimal value. -/
def JsNumber.neg (x : JsNumber) : JsNumber := ⟨-x.mant, x.scale⟩

/-- Modelled from the spec: rounding half away from zero (conventional decimal
rounding), the mode section 4.1 of the spec asserts for the key codec. -/
def roundHalfAwayFromZero (x : JsNumber) : ℤ :=
  if x.mant < 0 then -jsMathRound x.neg else jsMathRound x

/-- Modelled from the spec: the key codec as the spec words it, identical to
createCacheKey except that rounding is half away from zero. -/
def createCacheKeySpec (latitude longitude : JsNumber) : String :=
  let lat : JsNumber := ⟨roundHalfAwayFromZero latitude.mul100, 2⟩
  let lon : JsNumber := ⟨roundHalfAwayFromZero longitude.mul100, 2⟩
  jsNumToString lat ++ "," ++ jsNumToString lon

/-! ## Sample values used by the witnesses -/

/-- A sample cached reading (the shape the jest tests use). -/
def sampleReading : AirQualityData :=
  { latitude := dec 4071 2, longitude := dec (-7401) 2, current := none }

/-- The current block of the sample origin response. -/
def sampleCurrent : OpenMeteoCurrent :=
  { time := "2024-01-01T12:00:00Z", interval := dec 900 0
    us_aqi := some (dec 50 0), pm10 := some (dec 255 1), pm2_5 := some (dec 152 1) }

/-- A sample origin response body (the shape the jest tests use). -/
def sampleResponse : OpenMeteoResponse :=
  { latitude := dec 407128 4, longitude := dec (-740060) 4, current := some sampleCurrent }

/-- A sample origin response with no current block. -/
def sampleResponseNoCurrent : OpenMeteoResponse :=
  { latitude := dec 407128 4, longitude := dec (-740060) 4, current := none }

/-- A sample origin response whose current block lacks pm10 and pm2_5. -/
def samplePm10Missing : OpenMeteoResponse :=
  { latitude := dec 407128 4, longitude := dec (-740060) 4
    current := some { time := "2024-01-01T12:00:00Z", interval := dec 900 0
                      us_aqi := some (dec 50 0), pm10 := none, pm2_5 := none } }

/-- An environment whose cache read hits. -/
def envHit : Env :=
  { getOutcome := .resolve (some { data := some sampleReading })
    fetchOutcome := .reject "Network error", putOutcome := .resolve
    nowMs := 0, ttlSeconds := 3600 }

/-- An environment whose cache read misses and whose fetch succeeds. -/
def envMissOk : Env :=
  { getOutcome := .resolve none
    fetchOutcome := .resolve { status := 200, statusText := "OK", body := .ok sampleResponse }
    putOutcome := .resolve, nowMs := 1700000000123, ttlSeconds := 3600 }

/-- An environment whose cache read misses and whose fetch succeeds with a
body holding no current block. -/
def envMissNoCurrent : Env :=
  { getOutcome := .resolve none
    fetchOutcome := .resolve
      { status := 200, statusText := "OK", body := .ok sampleResponseNoCurrent }
    putOutcome := .resolve, nowMs := 1700000000123, ttlSeconds := 3600 }

/-- An environment whose cache read misses and whose fetch resolves 500. -/
def envMiss500 : Env :=
  { getOutcome := .resolve none
    fetchOutcome := .resolve
      { status := 500, statusText := "Internal Server Error", body := .error "unread" }
    putOutcome := .resolve, nowMs := 0, ttlSeconds := 3600 }

/-- An environment whose cache read misses and whose fetch rejects. -/
def envMissNetwork : Env :=
  { getOutcome := .resolve none
    fetchOutcome := .reject "Network error"
    putOutcome := .resolve, nowMs := 0, ttlSeconds := 3600 }

/-! ## Helper lemmas on the arithmetic model -/

theorem jsMathRound_eq_floor (x : JsNumber) :
    jsMathRound x = ⌊x.toRat + 1 / 2⌋ := by
  have hb : (0:ℤ) ≤ 2 * 10 ^ x.scale := by positivity
  rw [jsMathRound, Int.fdiv_eq_ediv _ hb]
  have h := Rat.floor_intCast_div_natCast (2 * x.mant + 10 ^ x.scale) (2 * 10 ^ x.scale)
  rw [show ((2 * 10 ^ x.scale : ℕ) : ℤ) = 2 * 10 ^ x.scale by push_cast; ring] at h
  rw [← h]
  congr 1
  rw [JsNumber.toRat]
  have h10 : ((10:ℚ)) ^ x.scale ≠ 0 := by positivity
  push_cast
  field_simp
  ring

theorem jsMathRound_bounds (x : JsNumber) :
    x.toRat - 1 / 2 < (jsMathRound x : ℚ) ∧ (jsMathRound x : ℚ) ≤ x.toRat + 1 / 2 := by
  rw [jsMathRound_eq_floor]
  refine ⟨?_, Int.floor_le _⟩
  have := Int.lt_floor_add_one (x.toRat + 1 / 2)
  linarith

theorem mul100_toRat (x : JsNumber) : x.mul100.toRat = x.toRat * 100 := by
  rcases x with ⟨m, s⟩
  match s with
  | 0 => simp [JsNumber.mul100, JsNumber.toRat]
  | 1 =>
      simp only [JsNumber.mul100, JsNumber.toRat]
      push_cast
      field_simp
      ring
  | n + 2 =>
      simp only [JsNumber.mul100, JsNumber.toRat]
      have h10 : ((10:ℚ)) ^ n ≠ 0 := by positivity
      rw [pow_succ, pow_succ]
      field_simp
      ring

/-! ## Claims -/

/-- Claim C1: on a cache hit the handler returns the cached reading unchanged,
and its trace holds only the cache read: the origin is never fetched and no
cache write occurs. -/
theorem handler_cache_hit (latitude longitude : JsNumber) (env : Env)
    (item : CacheItem) (d : AirQualityData)
    (hget : env.getOutcome = .resolve (some item)) (hdata : item.data = some d) :
    handler latitude longitude env
      = ([Event.cacheGet (createCacheKey latitude longitude)], Except.ok d) := by
  simp [handler, handlerTry, getCachedData, sendGet, hget, hdata, wrapCaught]

theorem handler_cache_hit_witness :
    handler (dec 407128 4) (dec (-740060) 4) envHit
      = ([Event.cacheGet "40.71,-74.01"], Except.ok sampleReading) := by
  have hkey : createCacheKey (dec 407128 4) (dec (-740060) 4) = "40.71,-74.01" := by decide
  have h := handler_cache_hit (dec 407128 4) (dec (-740060) 4) envHit
    { data := some sampleReading } sampleReading rfl rfl
  rw [hkey] at h
  exact h

/-- Claim C2: on a cache miss with a successful origin fetch, the handler
fetches the origin exactly once, with the unrounded coordinates in decimal
string form and the field list us_aqi, pm10, pm2_5 joined by commas; the
result echoes latitude/longitude from the origin body and renames
us_aqi/pm10/pm2_5 to usAqi/pm10/pm25; the cache is written exactly once with
the derived key and that result, which is returned. -/
theorem handler_cache_miss_origin_success (latitude longitude : JsNumber) (env : Env)
    (r : FetchResponse) (data : OpenMeteoResponse)
    (hget : env.getOutcome = .resolve none)
    (hfetch : env.fetchOutcome = .resolve r)
    (hok : r.ok) (hbody : r.body = .ok data) :
    handler latitude longitude env
      = ([Event.cacheGet (createCacheKey latitude longitude),
          Event.fetchCall apiUrl
            { latitude := jsNumToString latitude
              longitude := jsNumToString longitude
              current := String.intercalate "," ["us_aqi", "pm10", "pm2_5"] },
          Event.cachePut (createCacheKey latitude longitude)
            (mkCacheRecord (createCacheKey latitude longitude)
              { latitude := data.latitude, longitude := data.longitude
                current := data.current.map (fun c =>
                  { time := c.time, usAqi := c.us_aqi, pm10 := c.pm10, pm25 := c.pm2_5 }) }
              env.nowMs env.ttlSeconds)],
         Except.ok
           { latitude := data.latitude, longitude := data.longitude
             current := data.current.map (fun c =>
               { time := c.time, usAqi := c.us_aqi, pm10 := c.pm10, pm25 := c.pm2_5 }) }) := by
  cases hput : env.putOutcome <;>
    simp [handler, handlerTry, getCachedData, sendGet, hget, hfetch, hok, hbody, hput,
      setCachedData, transformResponse, fetchWeatherApiParams, currentFields, wrapCaught]

theorem handler_cache_miss_origin_success_witness :
    handler (dec 407128 4) (dec (-740060) 4) envMissOk
      = ([Event.cacheGet "40.71,-74.01",
          Event.fetchCall apiUrl
            { latitude := "40.7128", longitude := "-74.006", current := "us_aqi,pm10,pm2_5" },
          Event.cachePut "40.71,-74.01"
            { locationKey := "40.71,-74.01", data := transformResponse sampleResponse
              ttl := 1700003600 }],
         Except.ok (transformResponse sampleResponse)) := by
  have h := handler_cache_miss_origin_success (dec 407128 4) (dec (-740060) 4) envMissOk
    { status := 200, statusText := "OK", body := .ok sampleResponse } sampleResponse
    rfl rfl (by decide) rfl
  exact h.trans (by decide)

/-- Claim C3: the handler of src/lambda/getAirQuality.ts performs the origin
fetch unconditionally and touches no cache: whatever the fetch outcome, its
trace is exactly the one fetch call (so it neither reads nor writes the cache
and leaves any cache state unchanged); and the CDK stack wires exactly this
module and export as the deployed Lambda entry point. -/
theorem getAirQuality_handler_cacheless (latitude longitude : JsNumber)
    (f : FetchOutcome) (s : CacheState) :
    (handlerNoCache latitude longitude f).1
        = [Event.fetchCall apiUrl (fetchWeatherApiParams latitude longitude)] ∧
    applyEvents (handlerNoCache latitude longitude f).1 s = s ∧
    GetAirQualityFunction.entry = "../lambda/getAirQuality.ts" ∧
    GetAirQualityFunction.handlerName = "handler" := by
  have htr : (handlerNoCache latitude longitude f).1
      = [Event.fetchCall apiUrl (fetchWeatherApiParams latitude longitude)] := by
    cases f with
    | reject m => rfl
    | resolve r =>
        by_cases hok : r.ok
        · cases hb : r.body <;> simp [handlerNoCache, hok, hb]
        · simp [handlerNoCache, hok]
  refine ⟨htr, ?_, rfl, rfl⟩
  rw [htr]
  rfl

/-- Claim C4: every origin failure on the miss path surfaces as a single error
whose message is "Failed to fetch air quality data: " followed by
the underlying message: for a non-2xx response that underlying message is
"Open-Meteo API error: " plus status code and status text, and for a network
rejection or a body-decode failure it is the underlying message verbatim. -/
theorem handler_origin_failure_wrapped (latitude longitude : JsNumber) :
    (∀ (env : Env) (r : FetchResponse),
        env.getOutcome = .resolve none → env.fetchOutcome = .resolve r → ¬ r.ok →
        (handler latitude longitude env).2
          = .error ("Failed to fetch air quality data: "
              ++ ("Open-Meteo API error: " ++ toString r.status ++ " " ++ r.statusText))) ∧
    (∀ (env : Env) (m : String),
        env.getOutcome = .resolve none → env.fetchOutcome = .reject m →
        (handler latitude longitude env).2
          = .error ("Failed to fetch air quality data: " ++ m)) ∧
    (∀ (env : Env) (r : FetchResponse) (m : String),
        env.getOutcome = .resolve none → env.fetchOutcome = .resolve r → r.ok →
        r.body = .error m →
        (handler latitude longitude env).2
          = .error ("Failed to fetch air quality data: " ++ m)) := by
  refine ⟨?_, ?_, ?_⟩
  · intro env r hget hfetch hok
    simp [handler, handlerTry, getCachedData, sendGet, hget, hfetch, hok, wrapCaught]
  · intro env m hget hfetch
    simp [handler, handlerTry, getCachedData, sendGet, hget, hfetch, wrapCaught]
  · intro env r m hget hfetch hok hb
    simp [handler, handlerTry, getCachedData, sendGet, hget, hfetch, hok, hb, wrapCaught]

theorem handler_origin_failure_wrapped_witness :
    (handler (dec 407128 4) (dec (-740060) 4) envMiss500).2
      = .error "Failed to fetch air quality data: Open-Meteo API error: 500 Internal Server Error" ∧
    (handler (dec 407128 4) (dec (-740060) 4) envMissNetwork).2
      = .error "Failed to fetch air quality data: Network error" := by
  constructor
  · have h := (handler_origin_failure_wrapped (dec 407128 4) (dec (-740060) 4)).1 envMiss500
      { status := 500, statusText := "Internal Server Error", body := .error "unread" }
      rfl rfl (by decide)
    exact h.trans (by decide)
  · have h := (handler_origin_failure_wrapped (dec 407128 4) (dec (-740060) 4)).2.1 envMissNetwork
      "Network error" rfl rfl
    exact h.trans (by decide)

/-- Claim C5: getCachedData never raises: it returns null when the item is
absent, when the item lacks a readable data attribute, and when the lookup
itself rejects; and a rejecting lookup leaves the handler behaving exactly as
on a miss. -/
theorem getCachedData_fail_soft :
    (∀ o : GetOutcome, ∃ v, getCachedData o = Except.ok v) ∧
    getCachedData (.resolve none) = .ok none ∧
    (∀ item : CacheItem, item.data = none → getCachedData (.resolve (some item)) = .ok none) ∧
    (∀ m, getCachedData (.reject m) = .ok none) ∧
    (∀ (latitude longitude : JsNumber) (env : Env) (m : String),
        env.getOutcome = .reject m →
        handler latitude longitude env
          = handler latitude longitude { env with getOutcome := .resolve none }) := by
  refine ⟨?_, rfl, ?_, fun m => rfl, ?_⟩
  · intro o
    match o with
    | .reject m => exact ⟨none, rfl⟩
    | .resolve none => exact ⟨none, rfl⟩
    | .resolve (some item) =>
        match h : item.data with
        | some d => exact ⟨some d, by simp [getCachedData, sendGet, h]⟩
        | none => exact ⟨none, by simp [getCachedData, sendGet, h]⟩
  · intro item h
    simp [getCachedData, sendGet, h]
  · intro latitude longitude env m hget
    simp [handler, handlerTry, getCachedData, sendGet, hget]

theorem getCachedData_fail_soft_witness :
    getCachedData (.resolve (some { data := none })) = .ok none ∧
    handler (dec 407128 4) (dec (-740060) 4)
        { envMissNetwork with getOutcome := .reject "DynamoDB error" }
      = handler (dec 407128 4) (dec (-740060) 4) envMissNetwork := by
  constructor
  · exact getCachedData_fail_soft.2.2.1 { data := none } rfl
  · have h := getCachedData_fail_soft.2.2.2.2 (dec 407128 4) (dec (-740060) 4)
      { envMissNetwork with getOutcome := .reject "DynamoDB error" } "DynamoDB error" rfl
    exact h

/-- Claim C6: setCachedData always writes the record consisting of the
location key, the data, and a ttl equal to the current epoch-second time plus
the configured TTL, and never raises whatever the put outcome; consequently
the value the handler returns does not depend on the put outcome. -/
theorem setCachedData_fail_soft :
    (∀ (locationKey : String) (data : AirQualityData) (nowMs ttlSeconds : ℤ) (o : PutOutcome),
        setCachedData locationKey data nowMs ttlSeconds o
          = (Except.ok (),
             { locationKey := locationKey, data := data
               ttl := Int.fdiv nowMs 1000 + ttlSeconds })) ∧
    (∀ (latitude longitude : JsNumber) (env : Env) (o1 o2 : PutOutcome),
        (handler latitude longitude { env with putOutcome := o1 }).2
          = (handler latitude longitude { env with putOutcome := o2 }).2) := by
  constructor
  · intro locationKey data nowMs ttlSeconds o
    cases o <;> rfl
  · intro latitude longitude env o1 o2
    cases hget : getCachedData env.getOutcome with
    | error m => simp [handler, handlerTry, hget]
    | ok v =>
        cases v with
        | some d => simp [handler, handlerTry, hget]
        | none =>
            cases hf : env.fetchOutcome with
            | reject m => simp [handler, handlerTry, hget, hf]
            | resolve r =>
                by_cases hok : r.ok
                · cases hb : r.body with
                  | error m => simp [handler, handlerTry, hget, hf, hok, hb]
                  | ok data =>
                      cases o1 <;> cases o2 <;>
                        simp [handler, handlerTry, hget, hf, hok, hb, setCachedData, wrapCaught]
                · simp [handler, handlerTry, hget, hf, hok]

/-- Claim C7 counterexample: at latitude -0.125 (where double arithmetic is
exact: -0.125 * 100 = -12.5), Math.round rounds the tie toward positive
infinity and the code produces "-0.12,0", while half-away-from-zero rounding
as claimed would produce "-0.13,0". -/
theorem createCacheKey_not_half_away_cex :
    createCacheKey (dec (-125) 3) (dec 0 0) = "-0.12,0" ∧
    createCacheKeySpec (dec (-125) 3) (dec 0 0) = "-0.13,0" ∧
    createCacheKey (dec (-125) 3) (dec 0 0) ≠ createCacheKeySpec (dec (-125) 3) (dec 0 0) := by
  refine ⟨by decide, by decide, by decide⟩

/-- Claim C7 amended: createCacheKey computes round(value * 100) / 100
independently on each axis and concatenates the rounded values as "lat,lon",
but the rounding is JavaScript Math.round — nearest integer with ties toward
positive infinity (characterized below: the result lies in the half-open ball
(v - 1/2, v + 1/2] around the value v), not half away from zero. -/
theorem createCacheKey_half_up_amended (latitude longitude : JsNumber) :
    createCacheKey latitude longitude
      = jsNumToString ⟨jsMathRound latitude.mul100, 2⟩ ++ ","
          ++ jsNumToString ⟨jsMathRound longitude.mul100, 2⟩ ∧
    (∀ x : JsNumber,
        x.toRat - 1 / 2 < (jsMathRound x : ℚ) ∧ (jsMathRound x : ℚ) ≤ x.toRat + 1 / 2) ∧
    (∀ x : JsNumber, x.mul100.toRat = x.toRat * 100) ∧
    jsMathRound (dec (-125) 3).mul100 = -12 := by
  exact ⟨rfl, jsMathRound_bounds, mul100_toRat, by decide⟩

/-- Claim C8 counterexample: with the environment variable present but
unparsable (for example "abc"), parseInt yields NaN and the configured TTL is
not the default 3600 — the fallback applies only to an absent or empty value. -/
theorem cacheTtlSeconds_unparsable_cex :
    CACHE_TTL_SECONDS (some "abc") = none ∧
    CACHE_TTL_SECONDS (some "abc") ≠ some 3600 := by
  refine ⟨by decide, by decide⟩

/-- Claim C8 amended: the configured TTL is parsed with parseInt from the
environment value and defaults to the positive integer 3600 when that value is
absent or empty; when the value is present but unparsable as an integer the
result is NaN, not the default. -/
theorem cacheTtlSeconds_default_amended :
    CACHE_TTL_SECONDS none = some 3600 ∧
    CACHE_TTL_SECONDS (some "") = some 3600 ∧
    CACHE_TTL_SECONDS (some "abc") = none ∧
    CACHE_TTL_SECONDS (some "7200") = some 7200 := by
  refine ⟨by decide, by decide, by decide, by decide⟩

/-- Claim C9: any two coordinate pairs whose components round equal at two
decimal places produce the same key, and the three concrete equations of the
spec hold, including the fixed point under re-quantization and the
negative-coordinate case. -/
theorem createCacheKey_congruence :
    (∀ lat1 lon1 lat2 lon2 : JsNumber,
        jsMathRound lat1.mul100 = jsMathRound lat2.mul100 →
        jsMathRound lon1.mul100 = jsMathRound lon2.mul100 →
        createCacheKey lat1 lon1 = createCacheKey lat2 lon2) ∧
    createCacheKey (dec 407128 4) (dec (-740060) 4) = "40.71,-74.01" ∧
    createCacheKey (dec 4071 2) (dec (-7401) 2) = "40.71,-74.01" ∧
    createCacheKey (dec (-338688) 4) (dec 1512093 4) = "-33.87,151.21" := by
  refine ⟨?_, by decide, by decide, by decide⟩
  intro lat1 lon1 lat2 lon2 h1 h2
  simp [createCacheKey, h1, h2]

theorem createCacheKey_congruence_witness :
    createCacheKey (dec 407128 4) (dec (-740060) 4)
      = createCacheKey (dec 407129 4) (dec (-740061) 4) :=
  createCacheKey_congruence.1 _ _ _ _ (by decide) (by decide)

/-- Claim C10: on a cache miss whose origin response has no current block, the
result has current entirely absent, and is still written to the cache; and
when a current block is present its optional fields pass through as options,
so a missing pm10 stays missing rather than being defaulted. -/
theorem handler_no_current_block (latitude longitude : JsNumber) (env : Env)
    (r : FetchResponse) (data : OpenMeteoResponse)
    (hget : env.getOutcome = .resolve none)
    (hfetch : env.fetchOutcome = .resolve r)
    (hok : r.ok) (hbody : r.body = .ok data) :
    (data.current = none →
        (handler latitude longitude env).2
            = .ok { latitude := data.latitude, longitude := data.longitude, current := none } ∧
        Event.cachePut (createCacheKey latitude longitude)
            (mkCacheRecord (createCacheKey latitude longitude)
              { latitude := data.latitude, longitude := data.longitude, current := none }
              env.nowMs env.ttlSeconds)
          ∈ (handler latitude longitude env).1) ∧
    (∀ c, data.current = some c →
        (transformResponse data).current
          = some { time := c.time, usAqi := c.us_aqi, pm10 := c.pm10, pm25 := c.pm2_5 }) := by
  constructor
  · intro hnone
    cases hput : env.putOutcome <;>
      simp [handler, handlerTry, getCachedData, sendGet, hget, hfetch, hok, hbody, hput,
        setCachedData, transformResponse, hnone, wrapCaught, mkCacheRecord]
  · intro c hc
    simp [transformResponse, hc]

theorem handler_no_current_block_witness :
    (handler (dec 407128 4) (dec (-740060) 4) envMissNoCurrent).2
        = .ok { latitude := dec 407128 4, longitude := dec (-740060) 4, current := none } ∧
    Event.cachePut "40.71,-74.01"
        { locationKey := "40.71,-74.01"
          data := { latitude := dec 407128 4, longitude := dec (-740060) 4, current := none }
          ttl := 1700003600 }
      ∈ (handler (dec 407128 4) (dec (-740060) 4) envMissNoCurrent).1 ∧
    (transformResponse
        { latitude := dec 407128 4, longitude := dec (-740060) 4
          current := some { time := "2024-01-01T12:00:00Z", interval := dec 900 0
                            us_aqi := some (dec 50 0), pm10 := none, pm2_5 := none } }).current
      = some { time := "2024-01-01T12:00:00Z", usAqi := some (dec 50 0)
               pm10 := none, pm25 := none } := by
  have h := handler_no_current_block (dec 407128 4) (dec (-740060) 4) envMissNoCurrent
    { status := 200, statusText := "OK", body := .ok sampleResponseNoCurrent }
    sampleResponseNoCurrent rfl rfl (by decide) rfl
  have hp := handler_no_current_block (dec 407128 4) (dec (-740060) 4)
    { envMissNoCurrent with
        fetchOutcome := .resolve { status := 200, statusText := "OK", body := .ok samplePm10Missing } }
    { status := 200, statusText := "OK", body := .ok samplePm10Missing }
    samplePm10Missing rfl rfl (by decide) rfl
  have h1 := h.1 rfl
  refine ⟨h1.1, ?_, ?_⟩
  · have h2 := h1.2
    revert h2
    have hkey : createCacheKey (dec 407128 4) (dec (-740060) 4) = "40.71,-74.01" := by decide
    rw [hkey]
    intro h2
    exact h2
  · exact hp.2 { time := "2024-01-01T12:00:00Z", interval := dec 900 0
                 us_aqi := some (dec 50 0), pm10 := none, pm2_5 := none } rfl

end AwsWeather
